import Mathlib

/-
Verification of the secret-backed certificate writer
(`pkg/webhook/internal/cert/writer/secret.go`).

The Go code is shallowly embedded: byte slices become `List Nat`, the
nil-able `map[string][]byte` of a `corev1.Secret` becomes an
`Option` of an association list, the external collaborators (the k8s
client, the certificate generator, the yaml marshaller and the dry-run
sink) become pure response functions gathered in an `Env`, and each
operation returns, next to its Go results, the list of external calls it
performed (`Event`), so that frame properties ("never invokes
create/update") are statements about that list.
-/

namespace SecretCert

/-- Go `[]byte`: a byte string, modelled as a list of naturals. -/
abbrev Bytes := List Nat

/-- `generator.Artifacts`: the certificate artifact bundle (CA certificate,
server certificate, server private key). -/
structure Artifacts where
  CACert : Bytes
  Cert : Bytes
  Key : Bytes
deriving DecidableEq, Repr

/-- `types.NamespacedName`: the namespace+name identifier of the backend record. -/
structure NamespacedName where
  Namespace : String
  Name : String
deriving DecidableEq, Repr

/-- `corev1.Secret`, restricted to the fields this code touches: the
object meta namespace/name and the nil-able `Data` map, modelled as an
association list wrapped in `Option` (Go distinguishes a nil map from an
empty one). -/
structure Secret where
  Namespace : String
  Name : String
  Data : Option (List (String × Bytes))
deriving DecidableEq, Repr

/-- Go map indexing `m[k]` on a `map[string][]byte`: a missing key yields
the zero value, the nil (here: empty) byte slice. -/
def mapGet (m : List (String × Bytes)) (k : String) : Bytes :=
  match m.find? (fun p => p.1 == k) with
  | some p => p.2
  | none => []

/-- Modelled from the spec: `CACertName`, one of the "three fixed well-known
keys (CA certificate, server certificate, server key)" (defined in the
certwriter file of the repository, which is not part of this fragment);
the spec scenario in section 8 names the keys ca-key, cert-key and key-key. -/
def CACertName : String := "ca-key"

/-- Modelled from the spec: `ServerCertName`, the well-known server
certificate key (see `CACertName`). -/
def ServerCertName : String := "cert-key"

/-- Modelled from the spec: `ServerKeyName`, the well-known server private
key key (see `CACertName`). -/
def ServerKeyName : String := "key-key"

/-- `certsToSecret`: builds the secret carrying the three artifacts under
the three well-known keys, with the configured namespace/name. The entries
follow the order they are written in the Go map literal. -/
def certsToSecret (certs : Artifacts) (sec : NamespacedName) : Secret :=
  { Namespace := sec.Namespace
    Name := sec.Name
    Data := some [(CACertName, certs.CACert),
                  (ServerKeyName, certs.Key),
                  (ServerCertName, certs.Cert)] }

/-- `secretToCerts`: nil when the data map of the secret is nil, otherwise
the bundle assembled from the three well-known keys. -/
def secretToCerts (secret : Secret) : Option Artifacts :=
  match secret.Data with
  | none => none
  | some d =>
    some { CACert := mapGet d CACertName
           Cert := mapGet d ServerCertName
           Key := mapGet d ServerKeyName }

/-- The kinds into which the backend classifies its status errors; the
writer only ever inspects not-found and already-exists, everything else is
opaque to it. -/
inductive BackendKind where
  | notFound
  | alreadyExists
  | otherKind
deriving DecidableEq, Repr

/-- Go `error` values that can flow through this code: backend status
errors (classified by the `apierrors` helpers), the wrappers
`notFoundError` and `alreadyExistError` of the writer itself (modelled
from the error taxonomy in section 7 of the spec; their Go definitions
live in the error file of the repository, outside this fragment),
generator failures, yaml marshal failures, sink write failures and the
configuration errors of the constructor. -/
inductive GoError where
  | k8s (kind : BackendKind) (msg : String)
  | notFoundError (cause : Option GoError)
  | alreadyExistError (cause : Option GoError)
  | genFailure (msg : String)
  | marshalFailure (msg : String)
  | sinkFailure (msg : String)
  | configError (msg : String)

/-- Modelled from the spec: `apierrors.IsNotFound`, true exactly on a
backend status error carrying the not-found classification (section 4.1:
"Errors are classified by the backend into at least: already-exists (on
create) and not-found (on get)"); false on nil. -/
def IsNotFound : Option GoError → Bool
  | some (.k8s .notFound _) => true
  | _ => false

/-- Modelled from the spec: `apierrors.IsAlreadyExists`, true exactly on a
backend status error carrying the already-exists classification; false on
nil. -/
def IsAlreadyExists : Option GoError → Bool
  | some (.k8s .alreadyExists _) => true
  | _ => false

/-- One external call performed by an operation: a generator invocation, a
backend get/create/update, or a write of serialized bytes to the dry-run
sink. -/
inductive Event where
  | evGenerate (dnsName : String)
  | evGet (key : NamespacedName)
  | evCreate (s : Secret)
  | evUpdate (s : Secret)
  | evSinkWrite (bytes : Bytes)
deriving DecidableEq, Repr

/-- Whether an event is a generator invocation. -/
def Event.isGenerate : Event → Bool
  | .evGenerate _ => true
  | _ => false

/-- Whether an event is a backend get. -/
def Event.isGet : Event → Bool
  | .evGet _ => true
  | _ => false

/-- Whether an event is a backend create. -/
def Event.isCreate : Event → Bool
  | .evCreate _ => true
  | _ => false

/-- Whether an event is a backend update. -/
def Event.isUpdate : Event → Bool
  | .evUpdate _ => true
  | _ => false

/-- Whether an event is a write to the dry-run sink. -/
def Event.isSinkWrite : Event → Bool
  | .evSinkWrite _ => true
  | _ => false

/-- The external collaborators of the writer, as pure response functions:
the certificate generator (`CertGenerator.Generate`), the k8s client
(`Client.Get`/`Create`/`Update` — `clientGet` returns the secret content
the call fills in together with its error), `yaml.Marshal` and the
`Write` of the dry-run sink (of which the code only uses the error). -/
structure Env where
  generate : String → Except GoError Artifacts
  clientGet : NamespacedName → Secret × Option GoError
  clientCreate : Secret → Option GoError
  clientUpdate : Secret → Option GoError
  yamlMarshal : Secret → Except GoError Bytes
  sinkWrite : Bytes → Option GoError

/-- The state of a `secretCertWriter` that the three operations read: the
configured record identifier (`*s.Secret`, non-nil after construction),
and the per-call `dnsName` and `dryrun` fields set by `EnsureCert`. -/
structure WriterState where
  secret : NamespacedName
  dnsName : String
  dryrun : Bool
deriving DecidableEq, Repr

/-- `buildSecret`: invokes the generator once; on success converts the
fresh bundle to a secret under the configured identifier. In the source a
generator failure returns both results nil with the error, and the success
path returns both non-nil with a nil error, so an `Except` is faithful. -/
def buildSecret (env : Env) (s : WriterState) :
    Except GoError (Secret × Artifacts) × List Event :=
  match env.generate s.dnsName with
  | .error e => (.error e, [.evGenerate s.dnsName])
  | .ok certs => (.ok (certsToSecret certs s.secret, certs), [.evGenerate s.dnsName])

/-- `dryrunWrite`: marshals the secret to yaml and writes the bytes to the
configured sink, returning the first error encountered. -/
def dryrunWrite (env : Env) (secret : Secret) : Option GoError × List Event :=
  match env.yamlMarshal secret with
  | .error e => (some e, [])
  | .ok sec => (env.sinkWrite sec, [.evSinkWrite sec])

/-- `write`: builds the secret; in dry-run mode renders it to the sink and
returns the fresh bundle, otherwise creates it on the backend, translating
an already-exists classification into `alreadyExistError` with a nil
bundle. -/
def write (env : Env) (s : WriterState) :
    (Option Artifacts × Option GoError) × List Event :=
  match buildSecret env s with
  | (.error e, ev) => ((none, some e), ev)
  | (.ok (secret, certs), ev) =>
    if s.dryrun then
      let r := dryrunWrite env secret
      ((some certs, r.1), ev ++ r.2)
    else
      let err := env.clientCreate secret
      if IsAlreadyExists err then
        ((none, some (.alreadyExistError err)), ev ++ [.evCreate secret])
      else
        ((some certs, err), ev ++ [.evCreate secret])

/-- `overwrite`: same generation/conversion and dry-run path as `write`,
but the non-dry-run path calls update and passes its error through without
any classification. -/
def overwrite (env : Env) (s : WriterState) :
    (Option Artifacts × Option GoError) × List Event :=
  match buildSecret env s with
  | (.error e, ev) => ((none, some e), ev)
  | (.ok (secret, certs), ev) =>
    if s.dryrun then
      let r := dryrunWrite env secret
      ((some certs, r.1), ev ++ r.2)
    else
      ((some certs, env.clientUpdate secret), ev ++ [.evUpdate secret])

/-- `read`: in dry-run mode reports not-found without touching the
backend; otherwise gets the record, translating a not-found
classification into `notFoundError`, and else converting whatever the get
filled in (alongside any other error, unmodified). -/
def read (env : Env) (s : WriterState) :
    (Option Artifacts × Option GoError) × List Event :=
  if s.dryrun then
    ((none, some (.notFoundError none)), [])
  else
    let g := env.clientGet s.secret
    if IsNotFound g.2 then
      ((none, some (.notFoundError g.2)), [.evGet s.secret])
    else
      ((secretToCerts g.1, g.2), [.evGet s.secret])

/-- The record the k8s backend holds at the configured identifier: present
or absent. -/
abbrev StoreState := Option Secret

/-- The zero-valued secret that a failed Get leaves in the out-parameter. -/
def emptySecret : Secret := { Namespace := "", Name := "", Data := none }

/-- Modelled from the spec: the backend store discipline of section 4.1 —
Get reports the not-found classification on an absent record and returns
the stored record otherwise; Create reports the already-exists
classification on a present record and succeeds otherwise; Update
replaces unconditionally. The generator, marshaller and sink are passed
through. -/
def storeEnv (st : StoreState) (gen : String → Except GoError Artifacts)
    (marshal : Secret → Except GoError Bytes)
    (sink : Bytes → Option GoError) : Env :=
  { generate := gen
    clientGet := fun _ =>
      match st with
      | some sec => (sec, none)
      | none => (emptySecret, some (.k8s .notFound "not found"))
    clientCreate := fun _ =>
      match st with
      | some _ => some (.k8s .alreadyExists "already exists")
      | none => none
    clientUpdate := fun _ => none
    yamlMarshal := marshal
    sinkWrite := sink }

/-- The effect of one event on the backend record: Create stores the
secret only when the record is absent, Update replaces it, and the other
events leave the store untouched. -/
def applyEvent (st : StoreState) : Event → StoreState
  | .evCreate sec =>
    match st with
    | some _ => st
    | none => some sec
  | .evUpdate sec => some sec
  | _ => st

/-- The cumulative effect of a list of events on the backend record. -/
def applyEvents (st : StoreState) (evs : List Event) : StoreState :=
  evs.foldl applyEvent st

/-- A certificate generator value held in the options: the default
`SelfSignedCertGenerator` or any other implementation, abstracted to an
opaque tag. -/
inductive GenHandle where
  | selfSigned
  | custom (id : Nat)
deriving DecidableEq, Repr

/-- A dry-run output stream value held in the options: standard output
(the default) or any other stream, abstracted to an opaque tag. -/
inductive SinkHandle where
  | stdout
  | custom (id : Nat)
deriving DecidableEq, Repr

/-- `SecretCertWriterOptions`: the construction-time configuration. The
nil-able Go interface/pointer fields become `Option`s; the client is an
opaque handle since the constructor only checks it for nil. -/
structure SecretCertWriterOptions where
  Client : Option Nat
  CertGenerator : Option GenHandle
  Secret : Option NamespacedName
  Writer : Option SinkHandle
deriving DecidableEq, Repr

/-- `setDefaults`: fills an unset generator with the self-signed one and
an unset writer with standard output. -/
def setDefaults (ops : SecretCertWriterOptions) : SecretCertWriterOptions :=
  let ops1 :=
    if ops.CertGenerator = none then
      { ops with CertGenerator := some .selfSigned }
    else ops
  if ops1.Writer = none then { ops1 with Writer := some .stdout } else ops1

/-- `validate`: a configuration error when the client or the secret
identifier is unset. -/
def validate (ops : SecretCertWriterOptions) : Option GoError :=
  if ops.Client = none then
    some (.configError "client must be set in SecretCertWriterOptions")
  else if ops.Secret = none then
    some (.configError "secret must be set in SecretCertWriterOptions")
  else
    none

/-- The writer value returned by `NewSecretCertWriter`: the (defaulted)
options together with the zero-valued per-call fields. -/
structure ConstructedWriter where
  options : SecretCertWriterOptions
  dnsName : String
  dryrun : Bool
deriving DecidableEq, Repr

/-- `NewSecretCertWriter`: applies the defaults, validates, and on success
returns the writer holding the defaulted options. -/
def NewSecretCertWriter (ops : SecretCertWriterOptions) : Except GoError ConstructedWriter :=
  let ops1 := setDefaults ops
  match validate ops1 with
  | some e => .error e
  | none => .ok { options := ops1, dnsName := "", dryrun := false }

/-- A deterministic bundle used to instantiate the theorems. -/
def demoArtifacts : Artifacts := { CACert := [1], Cert := [2], Key := [3] }

/-- A deterministic, all-succeeding environment used to instantiate the
theorems at concrete inputs. -/
def demoEnv : Env :=
  { generate := fun _ => .ok demoArtifacts
    clientGet := fun _ => ({ Namespace := "", Name := "", Data := none }, none)
    clientCreate := fun _ => none
    clientUpdate := fun _ => none
    yamlMarshal := fun _ => .ok [9, 9]
    sinkWrite := fun _ => none }

/-- A concrete record identifier, as in the scenario of section 8 of the
spec. -/
def demoId : NamespacedName := { Namespace := "ns", Name := "webhook-cert" }

/-- A concrete writer state in dry-run mode. -/
def demoDry : WriterState := { secret := demoId, dnsName := "svc.ns.svc", dryrun := true }

/-- A concrete writer state in non-dry-run mode. -/
def demoWet : WriterState := { secret := demoId, dnsName := "svc.ns.svc", dryrun := false }

/-- A pre-existing backend record for the conflict scenario. -/
def demoStore : StoreState := some (certsToSecret ⟨[7], [8], [9]⟩ ⟨"ns", "webhook-cert"⟩)

/-- An environment whose generator fails. -/
def envGenFail : Env :=
  { demoEnv with generate := fun _ => .error (.genFailure "boom") }

/-- An environment whose create reports already-exists and whose update
and get fail with opaque backend errors. -/
def envBusy : Env :=
  { demoEnv with
    clientCreate := fun _ => some (.k8s .alreadyExists "already exists")
    clientUpdate := fun _ => some (.k8s .otherKind "update failed")
    clientGet := fun _ => (emptySecret, some (.k8s .otherKind "get failed")) }

/-- An environment whose create fails with an opaque backend error and
whose get reports not-found. -/
def envFlaky : Env :=
  { demoEnv with
    clientCreate := fun _ => some (.k8s .otherKind "create failed")
    clientGet := fun _ => (emptySecret, some (.k8s .notFound "not found")) }

/-- An environment whose dry-run sink fails. -/
def envSinkFail : Env :=
  { demoEnv with sinkWrite := fun _ => some (.sinkFailure "sink closed") }

/-- Claim C1: for every artifact bundle B and every namespace+name
identifier I, `secretToCerts (certsToSecret B I)` returns B: the CA
certificate, server certificate and server key bytes are all preserved. -/
theorem certsToSecret_roundtrip (B : Artifacts) (I : NamespacedName) :
    secretToCerts (certsToSecret B I) = some B := rfl

/-- Claim C5: `secretToCerts` returns nil iff the data map of the secret
is nil; a present-but-empty map, or one mapping the three well-known keys
to empty byte strings, yields a non-nil bundle with empty fields. -/
theorem secretToCerts_absent_iff :
    (∀ secret : Secret, secretToCerts secret = none ↔ secret.Data = none) ∧
    (∀ ns n : String,
      secretToCerts ⟨ns, n, some []⟩ = some ⟨[], [], []⟩) ∧
    (∀ ns n : String,
      secretToCerts
          ⟨ns, n, some [(CACertName, []), (ServerCertName, []), (ServerKeyName, [])]⟩
        = some ⟨[], [], []⟩) := by
  refine ⟨fun secret => ?_, fun ns n => rfl, fun ns n => rfl⟩
  cases h : secret.Data <;> simp [secretToCerts, h]

/-- Claim C6: in dry-run mode, `read` always reports absent: a nil bundle
together with a not-found-kind error, and no Get is ever issued to the
backend (its event list is empty). -/
theorem read_dryrun (env : Env) (s : WriterState) (h : s.dryrun = true) :
    read env s = ((none, some (.notFoundError none)), []) := by
  simp [read, h]

/-- Witness for C6 at a concrete environment and writer state. -/
theorem read_dryrun_witness :
    read demoEnv demoDry = ((none, some (.notFoundError none)), []) :=
  read_dryrun demoEnv demoDry rfl

/-- Claim C2: with dry-run enabled, `write` and `overwrite` never issue a
Create or Update to the store, invoke the generator exactly once, and,
when generation and yaml serialization succeed, write exactly one
serialized rendering of the would-be secret to the sink. -/
theorem dryrun_purity (env : Env) (s : WriterState) (h : s.dryrun = true) :
    ((write env s).2.countP Event.isGenerate = 1 ∧
     (write env s).2.countP Event.isCreate = 0 ∧
     (write env s).2.countP Event.isUpdate = 0 ∧
     ∀ certs ser, env.generate s.dnsName = .ok certs →
       env.yamlMarshal (certsToSecret certs s.secret) = .ok ser →
       (write env s).2.filter Event.isSinkWrite = [.evSinkWrite ser]) ∧
    ((overwrite env s).2.countP Event.isGenerate = 1 ∧
     (overwrite env s).2.countP Event.isCreate = 0 ∧
     (overwrite env s).2.countP Event.isUpdate = 0 ∧
     ∀ certs ser, env.generate s.dnsName = .ok certs →
       env.yamlMarshal (certsToSecret certs s.secret) = .ok ser →
       (overwrite env s).2.filter Event.isSinkWrite = [.evSinkWrite ser]) := by
  rcases hg : env.generate s.dnsName with e | certs
  · have hw : write env s = ((none, some e), [.evGenerate s.dnsName]) := by
      simp [write, buildSecret, hg]
    have ho : overwrite env s = ((none, some e), [.evGenerate s.dnsName]) := by
      simp [overwrite, buildSecret, hg]
    rw [hw, ho]
    refine ⟨⟨rfl, rfl, rfl, ?_⟩, rfl, rfl, rfl, ?_⟩ <;>
      · intro certs1 ser1 hcg1 hm1
        exact Except.noConfusion hcg1
  · rcases hm : env.yamlMarshal (certsToSecret certs s.secret) with e | ser
    · have hw : write env s = ((some certs, some e), [.evGenerate s.dnsName]) := by
        simp [write, buildSecret, dryrunWrite, hg, hm, h]
      have ho : overwrite env s = ((some certs, some e), [.evGenerate s.dnsName]) := by
        simp [overwrite, buildSecret, dryrunWrite, hg, hm, h]
      rw [hw, ho]
      refine ⟨⟨rfl, rfl, rfl, ?_⟩, rfl, rfl, rfl, ?_⟩ <;>
        · intro certs1 ser1 hcg1 hm1
          injection hcg1 with hc
          subst hc
          rw [hm] at hm1
          exact Except.noConfusion hm1
    · have hw : write env s
          = ((some certs, env.sinkWrite ser),
             [.evGenerate s.dnsName, .evSinkWrite ser]) := by
        simp [write, buildSecret, dryrunWrite, hg, hm, h]
      have ho : overwrite env s
          = ((some certs, env.sinkWrite ser),
             [.evGenerate s.dnsName, .evSinkWrite ser]) := by
        simp [overwrite, buildSecret, dryrunWrite, hg, hm, h]
      rw [hw, ho]
      refine ⟨⟨rfl, rfl, rfl, ?_⟩, rfl, rfl, rfl, ?_⟩ <;>
        · intro certs1 ser1 hcg1 hm1
          injection hcg1 with hc
          subst hc
          rw [hm] at hm1
          injection hm1 with hs
          subst hs
          rfl

/-- Witness for C2 at a concrete environment and dry-run writer state. -/
theorem dryrun_purity_witness :
    (write demoEnv demoDry).2.countP Event.isGenerate = 1 ∧
    (write demoEnv demoDry).2.countP Event.isCreate = 0 ∧
    (write demoEnv demoDry).2.countP Event.isUpdate = 0 ∧
    (write demoEnv demoDry).2.filter Event.isSinkWrite = [.evSinkWrite [9, 9]] ∧
    (overwrite demoEnv demoDry).2.countP Event.isUpdate = 0 ∧
    (overwrite demoEnv demoDry).2.filter Event.isSinkWrite = [.evSinkWrite [9, 9]] :=
  have t := dryrun_purity demoEnv demoDry rfl
  ⟨t.1.1, t.1.2.1, t.1.2.2.1, t.1.2.2.2 demoArtifacts [9, 9] rfl rfl,
   t.2.2.2.1, t.2.2.2.2 demoArtifacts [9, 9] rfl rfl⟩

/-- Claim C3: against a backend that already holds a record at the
configured identifier (whose Create therefore reports already-exists),
non-dry-run `write` with a succeeding generator returns a nil bundle
together with an already-exists-kind error, and replaying its events
against the store leaves the pre-existing record unchanged. -/
theorem write_conflict (st : StoreState) (gen : String → Except GoError Artifacts)
    (marshal : Secret → Except GoError Bytes) (sink : Bytes → Option GoError)
    (s : WriterState) (s0 : Secret) (certs : Artifacts)
    (hdry : s.dryrun = false) (hst : st = some s0) (hgen : gen s.dnsName = .ok certs) :
    write (storeEnv st gen marshal sink) s
      = ((none, some (.alreadyExistError (some (.k8s .alreadyExists "already exists")))),
         [.evGenerate s.dnsName, .evCreate (certsToSecret certs s.secret)]) ∧
    applyEvents st (write (storeEnv st gen marshal sink) s).2 = st := by
  subst hst
  have hw : write (storeEnv (some s0) gen marshal sink) s
      = ((none, some (.alreadyExistError (some (.k8s .alreadyExists "already exists")))),
         [.evGenerate s.dnsName, .evCreate (certsToSecret certs s.secret)]) := by
    simp [write, buildSecret, storeEnv, hgen, hdry, IsAlreadyExists]
  rw [hw]
  exact ⟨rfl, rfl⟩

/-- Witness for C3 at a concrete store, environment and writer state. -/
theorem write_conflict_witness :
    write (storeEnv demoStore (fun _ => .ok ⟨[1], [2], [3]⟩)
        (fun _ => .ok [9, 9]) (fun _ => none)) ⟨⟨"ns", "webhook-cert"⟩, "svc.ns.svc", false⟩
      = ((none, some (.alreadyExistError (some (.k8s .alreadyExists "already exists")))),
         [.evGenerate "svc.ns.svc",
          .evCreate (certsToSecret ⟨[1], [2], [3]⟩ ⟨"ns", "webhook-cert"⟩)]) ∧
    applyEvents demoStore
      (write (storeEnv demoStore (fun _ => .ok ⟨[1], [2], [3]⟩)
        (fun _ => .ok [9, 9]) (fun _ => none)) ⟨⟨"ns", "webhook-cert"⟩, "svc.ns.svc", false⟩).2
      = demoStore :=
  write_conflict demoStore (fun _ => .ok ⟨[1], [2], [3]⟩) (fun _ => .ok [9, 9])
    (fun _ => none) ⟨⟨"ns", "webhook-cert"⟩, "svc.ns.svc", false⟩
    (certsToSecret ⟨[7], [8], [9]⟩ ⟨"ns", "webhook-cert"⟩) ⟨[1], [2], [3]⟩ rfl rfl rfl

/-- Claim C4: against a backend with no record at the configured
identifier (whose Get therefore reports not-found), non-dry-run `read`
returns a nil bundle together with a not-found-kind error. -/
theorem read_not_found (gen : String → Except GoError Artifacts)
    (marshal : Secret → Except GoError Bytes) (sink : Bytes → Option GoError)
    (s : WriterState) (hdry : s.dryrun = false) :
    read (storeEnv none gen marshal sink) s
      = ((none, some (.notFoundError (some (.k8s .notFound "not found")))),
         [.evGet s.secret]) := by
  simp [read, storeEnv, hdry, IsNotFound]

/-- Witness for C4 at a concrete environment and writer state. -/
theorem read_not_found_witness :
    read (storeEnv none (fun _ => .ok ⟨[1], [2], [3]⟩)
        (fun _ => .ok [9, 9]) (fun _ => none)) ⟨⟨"ns", "webhook-cert"⟩, "svc.ns.svc", false⟩
      = ((none, some (.notFoundError (some (.k8s .notFound "not found")))),
         [.evGet ⟨"ns", "webhook-cert"⟩]) :=
  read_not_found (fun _ => .ok ⟨[1], [2], [3]⟩) (fun _ => .ok [9, 9]) (fun _ => none)
    ⟨⟨"ns", "webhook-cert"⟩, "svc.ns.svc", false⟩ rfl

/-- Claim C7: `NewSecretCertWriter` fails with a configuration error (and
no writer) exactly when the client or the secret identifier is unset;
otherwise it succeeds, substituting the self-signed generator for an
unset generator and standard output for an unset dry-run sink. -/
theorem constructor_contract (ops : SecretCertWriterOptions) :
    (ops.Client = none →
      NewSecretCertWriter ops
        = .error (.configError "client must be set in SecretCertWriterOptions")) ∧
    (ops.Client ≠ none → ops.Secret = none →
      NewSecretCertWriter ops
        = .error (.configError "secret must be set in SecretCertWriterOptions")) ∧
    (ops.Client ≠ none → ops.Secret ≠ none →
      NewSecretCertWriter ops
        = .ok ⟨⟨ops.Client, some (ops.CertGenerator.getD .selfSigned),
                ops.Secret, some (ops.Writer.getD .stdout)⟩, "", false⟩) := by
  obtain ⟨c, g, sec, w⟩ := ops
  cases c <;> cases g <;> cases sec <;> cases w <;>
    refine ⟨fun hc => ?_, fun hc hs => ?_, fun hc hs => ?_⟩ <;>
      simp_all [NewSecretCertWriter, setDefaults, validate, Option.getD]

/-- Witness for C7 at three concrete option records: client unset, secret
unset, and both set with generator and sink defaulted. -/
theorem constructor_contract_witness :
    NewSecretCertWriter ⟨none, none, none, none⟩
      = .error (.configError "client must be set in SecretCertWriterOptions") ∧
    NewSecretCertWriter ⟨some 1, none, none, none⟩
      = .error (.configError "secret must be set in SecretCertWriterOptions") ∧
    NewSecretCertWriter ⟨some 1, none, some demoId, none⟩
      = .ok ⟨⟨some 1, some .selfSigned, some demoId, some .stdout⟩, "", false⟩ :=
  ⟨(constructor_contract ⟨none, none, none, none⟩).1 rfl,
   (constructor_contract ⟨some 1, none, none, none⟩).2.1 (by simp) rfl,
   (constructor_contract ⟨some 1, none, some demoId, none⟩).2.2 (by simp) (by simp)⟩

/-- Claim C8: every secret built by `certsToSecret` carries the namespace
and name of the identifier and a non-nil data map whose keys are exactly
the three well-known names and no others; and every secret that `write`
or `overwrite` hands to the backend is one built by `certsToSecret` under
the configured identifier of the writer. -/
theorem record_shape :
    (∀ (certs : Artifacts) (sec : NamespacedName),
      (certsToSecret certs sec).Namespace = sec.Namespace ∧
      (certsToSecret certs sec).Name = sec.Name ∧
      ((certsToSecret certs sec).Data).map (List.map Prod.fst)
        = some [CACertName, ServerKeyName, ServerCertName]) ∧
    (∀ (env : Env) (s : WriterState) (sec : Secret),
      (Event.evCreate sec ∈ (write env s).2 ∨ Event.evUpdate sec ∈ (overwrite env s).2) →
      ∃ certs, sec = certsToSecret certs s.secret) := by
  refine ⟨fun certs sec => ⟨rfl, rfl, rfl⟩, fun env s sec hmem => ?_⟩
  rcases hg : env.generate s.dnsName with e | certs
  · rcases hmem with hmem | hmem <;>
      simp [write, overwrite, buildSecret, hg] at hmem
  · refine ⟨certs, ?_⟩
    by_cases hd : s.dryrun
    · rcases hm : env.yamlMarshal (certsToSecret certs s.secret) with e | ser <;>
        rcases hmem with hmem | hmem <;>
          simp [write, overwrite, buildSecret, dryrunWrite, hg, hm, hd] at hmem
    · rcases hmem with hmem | hmem
      · by_cases hae : IsAlreadyExists (env.clientCreate (certsToSecret certs s.secret)) <;>
          · simp [write, buildSecret, hg, hd, hae] at hmem
            exact hmem
      · simp [overwrite, buildSecret, hg, hd] at hmem
        exact hmem

/-- Witness for C8 at a concrete environment and secret: the secret that
the non-dry-run `write` creates. -/
theorem record_shape_witness :
    ∃ certs, certsToSecret demoArtifacts demoId = certsToSecret certs demoWet.secret :=
  record_shape.2 demoEnv demoWet (certsToSecret demoArtifacts demoId)
    (Or.inl (by simp [write, buildSecret, dryrunWrite, demoEnv, demoWet, demoId,
      demoArtifacts, IsAlreadyExists]))

/-- Claim C9: only the two actionable conditions are classified — `read`
wraps exactly the backend not-found into the not-found kind and `write`
wraps exactly the backend already-exists into the already-exists kind;
generator failures and all other errors of the backend get, create and
update are returned to the caller unmodified. -/
theorem error_propagation (env : Env) (s : WriterState) (hdry : s.dryrun = false) :
    (∀ e, env.generate s.dnsName = .error e →
      (write env s).1 = (none, some e) ∧ (overwrite env s).1 = (none, some e)) ∧
    (∀ certs, env.generate s.dnsName = .ok certs →
      (∀ e, env.clientCreate (certsToSecret certs s.secret) = some e →
        (IsAlreadyExists (some e) = true →
          (write env s).1 = (none, some (.alreadyExistError (some e)))) ∧
        (IsAlreadyExists (some e) = false →
          (write env s).1 = (some certs, some e))) ∧
      (∀ e, env.clientUpdate (certsToSecret certs s.secret) = some e →
        (overwrite env s).1 = (some certs, some e))) ∧
    (∀ sec e, env.clientGet s.secret = (sec, some e) →
      (IsNotFound (some e) = true →
        (read env s).1 = (none, some (.notFoundError (some e)))) ∧
      (IsNotFound (some e) = false →
        (read env s).1 = (secretToCerts sec, some e))) := by
  refine ⟨fun e hg => ?_,
    fun certs hg => ⟨fun e hc => ⟨fun hae => ?_, fun hae => ?_⟩, fun e hu => ?_⟩,
    fun sec e hget => ⟨fun hnf => ?_, fun hnf => ?_⟩⟩
  · exact ⟨by simp [write, buildSecret, hg], by simp [overwrite, buildSecret, hg]⟩
  · simp [write, buildSecret, hg, hdry, hc, hae]
  · simp [write, buildSecret, hg, hdry, hc, hae]
  · simp [overwrite, buildSecret, hg, hdry, hu]
  · simp [read, hdry, hget, hnf]
  · simp [read, hdry, hget, hnf]

/-- Witness for C9 at concrete environments exercising each clause:
generator failure, already-exists create, opaque create, opaque update,
not-found get and opaque get. -/
theorem error_propagation_witness :
    (write envGenFail demoWet).1 = (none, some (.genFailure "boom")) ∧
    (write envBusy demoWet).1
      = (none, some (.alreadyExistError (some (.k8s .alreadyExists "already exists")))) ∧
    (write envFlaky demoWet).1
      = (some demoArtifacts, some (.k8s .otherKind "create failed")) ∧
    (overwrite envBusy demoWet).1
      = (some demoArtifacts, some (.k8s .otherKind "update failed")) ∧
    (read envFlaky demoWet).1
      = (none, some (.notFoundError (some (.k8s .notFound "not found")))) ∧
    (read envBusy demoWet).1 = (none, some (.k8s .otherKind "get failed")) :=
  ⟨((error_propagation envGenFail demoWet rfl).1 (.genFailure "boom") rfl).1,
   (((error_propagation envBusy demoWet rfl).2.1 demoArtifacts rfl).1
      (.k8s .alreadyExists "already exists") rfl).1 rfl,
   (((error_propagation envFlaky demoWet rfl).2.1 demoArtifacts rfl).1
      (.k8s .otherKind "create failed") rfl).2 rfl,
   ((error_propagation envBusy demoWet rfl).2.1 demoArtifacts rfl).2
      (.k8s .otherKind "update failed") rfl,
   ((error_propagation envFlaky demoWet rfl).2.2 emptySecret
      (.k8s .notFound "not found") rfl).1 rfl,
   ((error_propagation envBusy demoWet rfl).2.2 emptySecret
      (.k8s .otherKind "get failed") rfl).2 rfl⟩

/-- Claim C10: when generation succeeds but a later step fails with an
error other than the already-exists kind — an opaque create error, any
update error, or a dry-run serialization/sink failure — the operation
returns the freshly generated non-nil bundle alongside that error; only
the already-exists case pairs the error with a nil bundle. -/
theorem bundle_kept_on_error (env : Env) (s : WriterState) (certs : Artifacts)
    (hg : env.generate s.dnsName = .ok certs) :
    (s.dryrun = false →
      ∀ e, env.clientCreate (certsToSecret certs s.secret) = some e →
        IsAlreadyExists (some e) = false →
        (write env s).1 = (some certs, some e)) ∧
    (s.dryrun = false →
      ∀ e, env.clientCreate (certsToSecret certs s.secret) = some e →
        IsAlreadyExists (some e) = true →
        (write env s).1 = (none, some (.alreadyExistError (some e)))) ∧
    (s.dryrun = false →
      ∀ e, env.clientUpdate (certsToSecret certs s.secret) = some e →
        (overwrite env s).1 = (some certs, some e)) ∧
    (s.dryrun = true →
      ∀ e, (dryrunWrite env (certsToSecret certs s.secret)).1 = some e →
        (write env s).1 = (some certs, some e) ∧
        (overwrite env s).1 = (some certs, some e)) := by
  refine ⟨fun hd e hc hae => ?_, fun hd e hc hae => ?_, fun hd e hu => ?_,
    fun hd e hdw => ?_⟩
  · simp [write, buildSecret, hg, hd, hc, hae]
  · simp [write, buildSecret, hg, hd, hc, hae]
  · simp [overwrite, buildSecret, hg, hd, hu]
  · exact ⟨by simp [write, buildSecret, hg, hd, hdw],
      by simp [overwrite, buildSecret, hg, hd, hdw]⟩

/-- Witness for C10 at concrete environments: opaque create error,
already-exists create, update error, and dry-run sink failure. -/
theorem bundle_kept_on_error_witness :
    (write envFlaky demoWet).1
      = (some demoArtifacts, some (.k8s .otherKind "create failed")) ∧
    (write envBusy demoWet).1
      = (none, some (.alreadyExistError (some (.k8s .alreadyExists "already exists")))) ∧
    (overwrite envBusy demoWet).1
      = (some demoArtifacts, some (.k8s .otherKind "update failed")) ∧
    (write envSinkFail demoDry).1
      = (some demoArtifacts, some (.sinkFailure "sink closed")) ∧
    (overwrite envSinkFail demoDry).1
      = (some demoArtifacts, some (.sinkFailure "sink closed")) :=
  ⟨(bundle_kept_on_error envFlaky demoWet demoArtifacts rfl).1 rfl
      (.k8s .otherKind "create failed") rfl rfl,
   (bundle_kept_on_error envBusy demoWet demoArtifacts rfl).2.1 rfl
      (.k8s .alreadyExists "already exists") rfl rfl,
   (bundle_kept_on_error envBusy demoWet demoArtifacts rfl).2.2.1 rfl
      (.k8s .otherKind "update failed") rfl,
   ((bundle_kept_on_error envSinkFail demoDry demoArtifacts rfl).2.2.2 rfl
      (.sinkFailure "sink closed") rfl).1,
   ((bundle_kept_on_error envSinkFail demoDry demoArtifacts rfl).2.2.2 rfl
      (.sinkFailure "sink closed") rfl).2⟩

end SecretCert
